import Mathlib

/-!
Shallow embedding of the engine lifecycle core of `rust-engine`
(src/engine/src/context.rs): the deferred-initialization application
state machine (`State`, `App`) and the engine lifecycle handle
(`EngineContext`).

External collaborators are modelled opaquely:
`Graphics` (crate render::graphics::Graphics) is an opaque renderer
handle identified by a numeric id; calls into it (`draw`, `resize`,
`request_redraw`), window creation, spawning the `create_graphics`
construction task and `event_loop.exit()` are recorded as an `Effect`
trace. Mutation of `self` in the Rust handlers is modelled by returning
the updated `App` together with the list of effects emitted, in order.
-/

namespace Engine

/-- Opaque handle to the externally constructed renderer
(render::graphics::Graphics). Only its identity matters to this core. -/
structure Graphics where
  id : Nat
deriving DecidableEq, Repr

/-- Proxy endpoint of an event loop's custom-event channel
(winit EventLoopProxy of Graphics); `loopId` ties it to the loop that
created it. -/
structure EventLoopProxy where
  loopId : Nat
deriving DecidableEq, Repr

/-- winit ControlFlow; the instant of WaitUntil is abstracted to a Nat. -/
inductive ControlFlow where
  | Poll
  | Wait
  | WaitUntil (t : Nat)
deriving DecidableEq, Repr

/-- winit EventLoop of Graphics: an identity plus its control-flow
setting. -/
structure EventLoop where
  id : Nat
  control_flow : ControlFlow
deriving DecidableEq, Repr

/-- EventLoop::with_user_event().build(): a fresh loop; winit's default
control flow before any set_control_flow call is ControlFlow::Wait. -/
def EventLoop.build (id : Nat) : EventLoop :=
  { id := id, control_flow := ControlFlow.Wait }

/-- event_loop.set_control_flow(cf). -/
def EventLoop.set_control_flow (el : EventLoop) (cf : ControlFlow) : EventLoop :=
  { el with control_flow := cf }

/-- event_loop.create_proxy(): a proxy endpoint of this loop's
custom-event channel. -/
def EventLoop.create_proxy (el : EventLoop) : EventLoopProxy :=
  { loopId := el.id }

/-- winit dpi::PhysicalSize of u32 (values only passed through, so Nat
suffices). -/
structure PhysicalSize where
  width : Nat
  height : Nat
deriving DecidableEq, Repr

/-- enum State of context.rs: Ready(Graphics) | Init(Option of
EventLoopProxy). -/
inductive State where
  | Ready (gfx : Graphics)
  | Init (proxy : Option EventLoopProxy)
deriving DecidableEq, Repr

/-- struct App of context.rs: it holds only the state. -/
structure App where
  state : State
deriving DecidableEq, Repr

/-- The window-event kinds context.rs matches on; every winit event kind
other than Resized, RedrawRequested and CloseRequested hits the
wildcard arm and is represented by `Other tag`. -/
inductive WindowEvent where
  | Resized (size : PhysicalSize)
  | RedrawRequested
  | CloseRequested
  | Other (tag : Nat)
deriving DecidableEq, Repr

/-- Observable side effects of the handlers, in emission order. -/
inductive Effect where
  | createWindow
  | spawnCreateGraphics (proxy : EventLoopProxy)
  | draw (gfx : Graphics)
  | resize (gfx : Graphics) (size : PhysicalSize)
  | requestRedraw (gfx : Graphics)
  | exitLoop
deriving DecidableEq, Repr

/-- App::new: state = State::Init(Some(event_loop.create_proxy())). -/
def App.new (event_loop : EventLoop) : App :=
  { state := State.Init (some event_loop.create_proxy) }

/-- App::draw: if let State::Ready(gfx) = state then gfx.draw(). -/
def App.draw (app : App) : App × List Effect :=
  match app.state with
  | State.Ready gfx => (app, [Effect.draw gfx])
  | State.Init _ => (app, [])

/-- App::resized: if let State::Ready(gfx) = state then
gfx.resize(size). -/
def App.resized (app : App) (size : PhysicalSize) : App × List Effect :=
  match app.state with
  | State.Ready gfx => (app, [Effect.resize gfx size])
  | State.Init _ => (app, [])

/-- ApplicationHandler::resumed: if in State::Init with an occupied
proxy slot, take the proxy (leaving the slot empty), create the window
and start create_graphics(window, proxy); otherwise do nothing. The
state variant stays Init; the constructed Graphics arrives later as a
user event. -/
def App.resumed (app : App) : App × List Effect :=
  match app.state with
  | State.Init (some proxy) =>
      ({ state := State.Init none },
        [Effect.createWindow, Effect.spawnCreateGraphics proxy])
  | State.Init none => (app, [])
  | State.Ready _ => (app, [])

/-- ApplicationHandler::user_event: graphics.request_redraw(); then
state = State::Ready(graphics), unconditionally. -/
def App.user_event (_app : App) (graphics : Graphics) : App × List Effect :=
  (({ state := State.Ready graphics } : App), [Effect.requestRedraw graphics])

/-- ApplicationHandler::window_event: dispatch on the event kind;
CloseRequested calls event_loop.exit(), the wildcard arm ignores the
event. -/
def App.window_event (app : App) (event : WindowEvent) : App × List Effect :=
  match event with
  | WindowEvent.Resized size => app.resized size
  | WindowEvent.RedrawRequested => app.draw
  | WindowEvent.CloseRequested => (app, [Effect.exitLoop])
  | WindowEvent.Other _ => (app, [])

/-- The events the event loop delivers to the App: an activation
(resumed), a window event, or the custom renderer-ready user event
carrying the Graphics. -/
inductive AppEvent where
  | activate
  | window (event : WindowEvent)
  | rendererReady (graphics : Graphics)
deriving DecidableEq, Repr

/-- Dispatch of one delivered event to the matching handler. -/
def App.handle (app : App) (ev : AppEvent) : App × List Effect :=
  match ev with
  | AppEvent.activate => app.resumed
  | AppEvent.window e => app.window_event e
  | AppEvent.rendererReady g => app.user_event g

/-- Deliver a sequence of events in order, concatenating the emitted
effects. -/
def App.runEvents : App → List AppEvent → App × List Effect
  | app, [] => (app, [])
  | app, ev :: rest =>
      let step := app.handle ev
      let tail := step.1.runEvents rest
      (tail.1, step.2 ++ tail.2)

/-- Whether the state is the Ready variant. -/
def readyFlag : State → Bool
  | State.Ready _ => true
  | State.Init _ => false

/-- The renderers a state holds live. -/
def renderersOf : State → List Graphics
  | State.Ready gfx => [gfx]
  | State.Init _ => []

/-- Number of events in a run whose handling moves the state from the
Init variant to the Ready variant. -/
def transCount : App → List AppEvent → Nat
  | _, [] => 0
  | app, ev :: rest =>
      (if !readyFlag app.state && readyFlag (App.handle app ev).1.state then 1 else 0)
        + transCount (App.handle app ev).1 rest

/-- std::sync::Arc, abstracted to its value and its strong reference
count; Arc::try_unwrap succeeds exactly when the count is 1. -/
structure Arc (α : Type) where
  value : α
  strong_count : Nat

/-- Arc::new. -/
def Arc.new {α : Type} (v : α) : Arc α :=
  { value := v, strong_count := 1 }

/-- Arc::try_unwrap. -/
def Arc.try_unwrap {α : Type} (a : Arc α) : Except (Arc α) α :=
  if a.strong_count = 1 then Except.ok a.value else Except.error a

/-- struct EngineContext of context.rs. -/
structure EngineContext where
  delta_time : Float
  event_loop : Option EventLoop
  app : App

/-- Outcome of EngineContext::run: the event loop and app were handed to
run_app, or event_loop was already None (silent return), or the
Arc::try_unwrap panicked. -/
inductive RunResult where
  | ran (event_loop : EventLoop) (app : App)
  | ranNoLoop
  | panicked (msg : String)
deriving Repr

/-- EngineContext::new: build the user-event loop, set ControlFlow::Poll,
build the App from it, wrap everything in a fresh Arc. The id of the
freshly built loop is taken as a parameter. -/
def EngineContext.new (elId : Nat) : Arc EngineContext :=
  let event_loop := (EventLoop.build elId).set_control_flow ControlFlow.Poll
  let app := App.new event_loop
  Arc.new { delta_time := 0.0, event_loop := some event_loop, app := app }

/-- EngineContext::run: Arc::try_unwrap(self).unwrap_or_else(panic);
then if let Some(event_loop) = ctx.event_loop.take() then
run_app(event_loop, ctx.app). -/
def EngineContext.run (self : Arc EngineContext) : RunResult :=
  match Arc.try_unwrap self with
  | Except.error _ =>
      RunResult.panicked "EngineContext must have no other Arc references when calling run"
  | Except.ok ctx =>
      match ctx.event_loop with
      | some event_loop => RunResult.ran event_loop ctx.app
      | none => RunResult.ranNoLoop

/-! Helper lemmas. -/

/-- Unfolding of runEvents on a cons. -/
theorem runEvents_cons (app : App) (ev : AppEvent) (rest : List AppEvent) :
    App.runEvents app (ev :: rest)
      = ((App.runEvents (App.handle app ev).1 rest).1,
         (App.handle app ev).2 ++ (App.runEvents (App.handle app ev).1 rest).2) := rfl

/-- Unfolding of transCount on a cons. -/
theorem transCount_cons (app : App) (ev : AppEvent) (rest : List AppEvent) :
    transCount app (ev :: rest)
      = (if !readyFlag app.state && readyFlag (App.handle app ev).1.state then 1 else 0)
          + transCount (App.handle app ev).1 rest := rfl

/-- window_event never changes the App component of the result. -/
theorem window_event_app_unchanged (app : App) (e : WindowEvent) :
    (App.window_event app e).1 = app := by
  obtain ⟨s⟩ := app
  cases e <;> cases s <;> rfl

/-- Handling any single event preserves the Ready variant. -/
theorem ready_persists (app : App) (ev : AppEvent)
    (h : readyFlag app.state = true) :
    readyFlag (App.handle app ev).1.state = true := by
  obtain ⟨s⟩ := app
  cases s with
  | Ready g =>
    cases ev with
    | activate => rfl
    | window e => cases e <;> rfl
    | rendererReady g2 => rfl
  | Init o => simp [readyFlag] at h

/-- Handling a sequence of events preserves the Ready variant. -/
theorem ready_persists_run (app : App) (evs : List AppEvent)
    (h : readyFlag app.state = true) :
    readyFlag (App.runEvents app evs).1.state = true := by
  induction evs generalizing app with
  | nil => exact h
  | cons e r ih =>
    rw [runEvents_cons]
    exact ih _ (ready_persists app e h)

/-- A run started in the Ready variant performs no Init-to-Ready
transition. -/
theorem transCount_of_ready (app : App) (evs : List AppEvent)
    (h : readyFlag app.state = true) :
    transCount app evs = 0 := by
  induction evs generalizing app with
  | nil => rfl
  | cons e r ih =>
    rw [transCount_cons, h, ih _ (ready_persists app e h)]
    simp

/-- Any run performs at most one Init-to-Ready transition. -/
theorem transCount_le_one (app : App) (evs : List AppEvent) :
    transCount app evs ≤ 1 := by
  induction evs generalizing app with
  | nil => exact Nat.zero_le 1
  | cons e r ih =>
    rw [transCount_cons]
    cases h : readyFlag app.state with
    | true =>
      rw [transCount_of_ready _ r (ready_persists app e h)]
      simp
    | false =>
      cases h1 : readyFlag (App.handle app e).1.state with
      | true =>
        rw [transCount_of_ready _ r h1]
        simp
      | false =>
        simpa using ih (App.handle app e).1

/-- An event that moves an Init-variant state to the Ready variant is a
renderer-ready delivery. -/
theorem init_to_ready_only (app : App) (ev : AppEvent)
    (h0 : readyFlag app.state = false)
    (h1 : readyFlag (App.handle app ev).1.state = true) :
    ∃ g, ev = AppEvent.rendererReady g := by
  cases ev with
  | activate =>
    exfalso
    obtain ⟨s⟩ := app
    cases s with
    | Ready g => simp [readyFlag] at h0
    | Init o =>
      cases o with
      | none => simp [App.handle, App.resumed, readyFlag] at h1
      | some p => simp [App.handle, App.resumed, readyFlag] at h1
  | window e =>
    exfalso
    have hfix : App.handle app (AppEvent.window e) = App.window_event app e := rfl
    rw [hfix, window_event_app_unchanged app e, h0] at h1
    exact Bool.noConfusion h1
  | rendererReady g => exact ⟨g, rfl⟩

/-- Repeated activations of an App whose proxy slot is already empty do
nothing and emit nothing. -/
theorem runEvents_activate_noop (m : Nat) :
    App.runEvents { state := State.Init none } (List.replicate m AppEvent.activate)
      = ({ state := State.Init none }, []) := by
  induction m with
  | zero => rfl
  | succ k ih =>
    rw [List.replicate_succ, runEvents_cons]
    have hstep : App.handle { state := State.Init none } AppEvent.activate
        = ({ state := State.Init none }, []) := rfl
    rw [hstep, ih]
    rfl

/-! Claim theorems. -/

/-- C1: over any delivered event sequence the state goes from Init to
Ready at most once and never back: once Ready it stays Ready for the
rest of the run, only a renderer-ready delivery moves an Init state to
Ready, and no state holds two live renderers simultaneously. -/
theorem C1_single_one_directional_transition :
    (∀ (app : App) (evs : List AppEvent), readyFlag app.state = true →
        readyFlag (App.runEvents app evs).1.state = true) ∧
    (∀ (app : App) (ev : AppEvent), readyFlag app.state = false →
        readyFlag (App.handle app ev).1.state = true →
        ∃ g, ev = AppEvent.rendererReady g) ∧
    (∀ (app : App) (evs : List AppEvent), transCount app evs ≤ 1) ∧
    (∀ s : State, (renderersOf s).length ≤ 1) := by
  refine ⟨ready_persists_run, init_to_ready_only, transCount_le_one, ?_⟩
  intro s
  cases s <;> simp [renderersOf]

/-- C1 witness: both implications of C1 discharged at concrete inputs. -/
theorem C1_single_one_directional_transition_witness :
    readyFlag (App.runEvents { state := State.Ready ⟨0⟩ } [AppEvent.activate]).1.state = true ∧
    (∃ g, AppEvent.rendererReady (⟨1⟩ : Graphics) = AppEvent.rendererReady g) :=
  ⟨C1_single_one_directional_transition.1 { state := State.Ready ⟨0⟩ } [AppEvent.activate] rfl,
   C1_single_one_directional_transition.2.1 { state := State.Init none }
     (AppEvent.rendererReady ⟨1⟩) rfl rfl⟩

/-- C2: for every N at least 1, delivering N activations to a freshly
built App before the first construction completes leaves the state
Init(None) and emits exactly one window creation and exactly one
construction-task spawn, never N. -/
theorem C2_idempotent_activation (el : EventLoop) (n : Nat) (h : 1 ≤ n) :
    App.runEvents (App.new el) (List.replicate n AppEvent.activate)
      = ({ state := State.Init none },
         [Effect.createWindow, Effect.spawnCreateGraphics el.create_proxy]) ∧
    (App.runEvents (App.new el) (List.replicate n AppEvent.activate)).2.count
        Effect.createWindow = 1 ∧
    (App.runEvents (App.new el) (List.replicate n AppEvent.activate)).2.count
        (Effect.spawnCreateGraphics el.create_proxy) = 1 := by
  obtain ⟨m, rfl⟩ : ∃ m, n = m + 1 := ⟨n - 1, (Nat.succ_pred_eq_of_pos h).symm⟩
  have hrun : App.runEvents (App.new el) (List.replicate (m + 1) AppEvent.activate)
      = ({ state := State.Init none },
         [Effect.createWindow, Effect.spawnCreateGraphics el.create_proxy]) := by
    rw [List.replicate_succ, runEvents_cons]
    have hstep : App.handle (App.new el) AppEvent.activate
        = ({ state := State.Init none },
           [Effect.createWindow, Effect.spawnCreateGraphics el.create_proxy]) := rfl
    rw [hstep, runEvents_activate_noop]
    rfl
  refine ⟨hrun, ?_, ?_⟩ <;>
    simp [hrun, List.count_cons, Effect.spawnCreateGraphics.injEq]

/-- C2 witness: three activations on a concrete fresh App yield exactly
one window creation and one construction-task spawn. -/
theorem C2_idempotent_activation_witness :
    App.runEvents (App.new (EventLoop.build 0)) (List.replicate 3 AppEvent.activate)
      = ({ state := State.Init none },
         [Effect.createWindow,
          Effect.spawnCreateGraphics (EventLoop.build 0).create_proxy]) :=
  (C2_idempotent_activation (EventLoop.build 0) 3 (by decide)).1

/-- C3: handling a renderer-ready delivery makes the state Ready holding
exactly that renderer, whatever the prior state was, and emits exactly
one immediate redraw request on that renderer. -/
theorem C3_renderer_ready_sets_state_and_redraws (app : App) (g : Graphics) :
    App.user_event app g
      = ({ state := State.Ready g }, [Effect.requestRedraw g]) := rfl

/-- C4: window-event dispatch: resize reaches renderer.resize exactly in
the Ready state and is dropped in Init; redraw-requested reaches
renderer.draw exactly in the Ready state and is dropped in Init; any
other kind except close-requested is ignored. -/
theorem C4_window_event_dispatch (app : App) (size : PhysicalSize) (g : Graphics) (tag : Nat) :
    (app.state = State.Ready g →
      App.window_event app (WindowEvent.Resized size) = (app, [Effect.resize g size])) ∧
    (∀ o, app.state = State.Init o →
      App.window_event app (WindowEvent.Resized size) = (app, [])) ∧
    (app.state = State.Ready g →
      App.window_event app WindowEvent.RedrawRequested = (app, [Effect.draw g])) ∧
    (∀ o, app.state = State.Init o →
      App.window_event app WindowEvent.RedrawRequested = (app, [])) ∧
    App.window_event app (WindowEvent.Other tag) = (app, []) := by
  obtain ⟨s⟩ := app
  refine ⟨?_, ?_, ?_, ?_, rfl⟩
  · intro h
    have hs : s = State.Ready g := h
    subst hs
    rfl
  · intro o h
    have hs : s = State.Init o := h
    subst hs
    rfl
  · intro h
    have hs : s = State.Ready g := h
    subst hs
    rfl
  · intro o h
    have hs : s = State.Init o := h
    subst hs
    rfl

/-- C4 witness: each dispatch arm of C4 discharged at concrete Ready and
Init states. -/
theorem C4_window_event_dispatch_witness :
    App.window_event { state := State.Ready ⟨4⟩ } (WindowEvent.Resized ⟨800, 600⟩)
      = ({ state := State.Ready ⟨4⟩ }, [Effect.resize ⟨4⟩ ⟨800, 600⟩]) ∧
    App.window_event { state := State.Init none } (WindowEvent.Resized ⟨800, 600⟩)
      = ({ state := State.Init none }, []) ∧
    App.window_event { state := State.Ready ⟨4⟩ } WindowEvent.RedrawRequested
      = ({ state := State.Ready ⟨4⟩ }, [Effect.draw ⟨4⟩]) ∧
    App.window_event { state := State.Init none } WindowEvent.RedrawRequested
      = ({ state := State.Init none }, []) ∧
    App.window_event { state := State.Ready ⟨4⟩ } (WindowEvent.Other 9)
      = ({ state := State.Ready ⟨4⟩ }, []) :=
  ⟨(C4_window_event_dispatch { state := State.Ready ⟨4⟩ } ⟨800, 600⟩ ⟨4⟩ 9).1 rfl,
   (C4_window_event_dispatch { state := State.Init none } ⟨800, 600⟩ ⟨4⟩ 9).2.1 none rfl,
   (C4_window_event_dispatch { state := State.Ready ⟨4⟩ } ⟨800, 600⟩ ⟨4⟩ 9).2.2.1 rfl,
   (C4_window_event_dispatch { state := State.Init none } ⟨800, 600⟩ ⟨4⟩ 9).2.2.2.1 none rfl,
   (C4_window_event_dispatch { state := State.Ready ⟨4⟩ } ⟨800, 600⟩ ⟨4⟩ 9).2.2.2.2⟩

/-- C5: a close-requested window event always exits the event loop, in
every state, including on the freshly created App of EngineContext::new
before any activation. -/
theorem C5_close_always_terminates :
    (∀ app : App,
      App.window_event app WindowEvent.CloseRequested = (app, [Effect.exitLoop])) ∧
    (∀ elId : Nat,
      App.window_event (EngineContext.new elId).value.app WindowEvent.CloseRequested
        = ((EngineContext.new elId).value.app, [Effect.exitLoop])) :=
  ⟨fun _ => rfl, fun _ => rfl⟩

/-- C6: EngineContext::run panics with a descriptive message whenever
the Arc has other outstanding references, and on a uniquely owned handle
it moves the event loop out and hands it with the App to the platform
runner. -/
theorem C6_run_requires_unique_ownership (a : Arc EngineContext) :
    (a.strong_count ≠ 1 →
      EngineContext.run a = RunResult.panicked
        "EngineContext must have no other Arc references when calling run") ∧
    (a.strong_count = 1 → ∀ el, a.value.event_loop = some el →
      EngineContext.run a = RunResult.ran el a.value.app) := by
  constructor
  · intro h
    simp [EngineContext.run, Arc.try_unwrap, h]
  · intro h el hel
    simp [EngineContext.run, Arc.try_unwrap, h, hel]

/-- C6 witness: an aliased handle panics; the uniquely owned handle from
EngineContext::new hands loop and app to the runner. -/
theorem C6_run_requires_unique_ownership_witness :
    EngineContext.run { value := (EngineContext.new 0).value, strong_count := 2 }
      = RunResult.panicked
          "EngineContext must have no other Arc references when calling run" ∧
    EngineContext.run (EngineContext.new 0)
      = RunResult.ran ((EventLoop.build 0).set_control_flow ControlFlow.Poll)
          (App.new ((EventLoop.build 0).set_control_flow ControlFlow.Poll)) :=
  ⟨(C6_run_requires_unique_ownership
      { value := (EngineContext.new 0).value, strong_count := 2 }).1 (by decide),
   (C6_run_requires_unique_ownership (EngineContext.new 0)).2 rfl
      ((EventLoop.build 0).set_control_flow ControlFlow.Poll) rfl⟩

/-- C7: resumed never changes the state variant synchronously: from any
Init state it leaves an Init state (with the slot emptied), and a step
can only end Ready if it started Ready or was a renderer-ready
delivery. -/
theorem C7_no_synchronous_transition :
    (∀ (app : App) (o : Option EventLoopProxy), app.state = State.Init o →
      (App.resumed app).1.state = State.Init none) ∧
    (∀ (app : App) (ev : AppEvent) (g : Graphics),
      (App.handle app ev).1.state = State.Ready g →
      app.state = State.Ready g ∨ ev = AppEvent.rendererReady g) := by
  constructor
  · intro app o h
    obtain ⟨s⟩ := app
    have hs : s = State.Init o := h
    subst hs
    cases o <;> rfl
  · intro app ev g h
    cases ev with
    | activate =>
      obtain ⟨s⟩ := app
      cases s with
      | Ready g0 =>
        exact Or.inl h
      | Init o =>
        exfalso
        cases o with
        | none => exact State.noConfusion h
        | some p => exact State.noConfusion h
    | window e =>
      have hfix : App.handle app (AppEvent.window e) = App.window_event app e := rfl
      rw [hfix, window_event_app_unchanged app e] at h
      exact Or.inl h
    | rendererReady g2 =>
      right
      have h2 : State.Ready g2 = State.Ready g := h
      rw [(State.Ready.injEq g2 g).mp h2]

/-- C7 witness: both implications of C7 discharged at concrete Init
states. -/
theorem C7_no_synchronous_transition_witness :
    (App.resumed { state := State.Init (some ⟨0⟩) }).1.state = State.Init none ∧
    (({ state := State.Init none } : App).state = State.Ready ⟨2⟩ ∨
      AppEvent.rendererReady (⟨2⟩ : Graphics) = AppEvent.rendererReady ⟨2⟩) :=
  ⟨C7_no_synchronous_transition.1 { state := State.Init (some ⟨0⟩) } (some ⟨0⟩) rfl,
   C7_no_synchronous_transition.2 { state := State.Init none }
     (AppEvent.rendererReady ⟨2⟩) ⟨2⟩ rfl⟩

/-- C8: EngineContext::new builds one event loop set to continuous
polling and one App whose state is Init holding that loop's proxy, and
returns a uniquely owned handle to both. -/
theorem C8_create_initial_configuration (elId : Nat) :
    (EngineContext.new elId).strong_count = 1 ∧
    ∃ el, (EngineContext.new elId).value.event_loop = some el ∧
      el.control_flow = ControlFlow.Poll ∧
      el.id = elId ∧
      (EngineContext.new elId).value.app.state = State.Init (some el.create_proxy) :=
  ⟨rfl, (EventLoop.build elId).set_control_flow ControlFlow.Poll, rfl, rfl, rfl, rfl⟩

/-- C9: calling resumed in a Ready state is a complete no-op: the App is
unchanged and no effect is emitted. -/
theorem C9_resumed_noop_when_ready (app : App) (g : Graphics)
    (h : app.state = State.Ready g) : App.resumed app = (app, []) := by
  obtain ⟨s⟩ := app
  have hs : s = State.Ready g := h
  subst hs
  rfl

/-- C9 witness: C9 discharged at a concrete Ready state. -/
theorem C9_resumed_noop_when_ready_witness :
    App.resumed { state := State.Ready ⟨3⟩ } = ({ state := State.Ready ⟨3⟩ }, []) :=
  C9_resumed_noop_when_ready { state := State.Ready ⟨3⟩ } ⟨3⟩ rfl

/-- C10: handling any window event leaves the ApplicationState
unchanged: the resulting App equals the one before the call. -/
theorem C10_window_event_preserves_state (app : App) (ev : WindowEvent) :
    (App.window_event app ev).1 = app := by
  obtain ⟨s⟩ := app
  cases ev <;> cases s <;> rfl

end Engine
